import Mathlib

/-!
Verification of the TravelRag orchestration layer.

The definitions below are a shallow embedding of the repository's Python
sources, chiefly `src/agents/main_travel_supervisor_agent.py` (the
supervisor state graph and its node functions),
`src/agents/chroma_travel_tools.py` (the vector-search tools) and
`src/agents/amadeus_tools.py` (the results formatter).  External
collaborators (the language model, the LlamaGuard safety classifier and
the tool backends) are modelled as oracle values fixed for one turn.
-/

set_option autoImplicit false

namespace TravelRag

/-- A tool call requested inside an assistant message (LangChain `ToolCall`):
an id, a tool name and an argument mapping. -/
structure ToolCall where
  id : String
  name : String
  args : List (String × String)
deriving Repr, DecidableEq

/-- An assistant (`AIMessage`) payload: optional message id, text content and
the ordered list of requested tool calls. -/
structure AIMsg where
  id : Option String
  content : String
  tool_calls : List ToolCall
deriving Repr, DecidableEq

/-- A conversation message, tagged by role as the agent graph distinguishes
them (`HumanMessage`, `AIMessage`, `ToolMessage`). -/
inductive Message where
  | user (content : String)
  | ai (msg : AIMsg)
  | tool (tool_call_id : String) (content : String)
deriving Repr, DecidableEq

/-- Modelled from the spec: `SafetyAssessment` of `agents/llama_guard.py`
(imported by the supervisor module but not under src/).  Per §3 a
SafetyVerdict assessment is SAFE or UNSAFE. -/
inductive SafetyAssessment where
  | safe
  | unsafe_
deriving Repr, DecidableEq

/-- Modelled from the spec: `LlamaGuardOutput` of `agents/llama_guard.py`
(not under src/): the assessment together with the violated category
labels (§3 SafetyVerdict). -/
structure LlamaGuardOutput where
  safety_assessment : SafetyAssessment
  unsafe_categories : List String
deriving Repr, DecidableEq

/-- The partial state update a supervisor graph node returns: the messages it
appends and, when set, the new safety verdict
(`main_travel_supervisor_agent.py` node return dicts). -/
structure NodeUpdate where
  messages : List Message
  safety : Option LlamaGuardOutput
deriving Repr, DecidableEq

/-- `format_safety_message` (main_travel_supervisor_agent.py lines 129-134):
an `AIMessage` whose content lists the violated categories. -/
def format_safety_message (safety : LlamaGuardOutput) : AIMsg :=
  { id := none
    content := "This travel planning request was flagged for unsafe content: "
      ++ String.intercalate ", " safety.unsafe_categories
    tool_calls := [] }

/-- The fixed fallback text substituted when the step budget is nearly
exhausted (main_travel_supervisor_agent.py lines 156-159). -/
def budget_fallback_content : String :=
  "I need more steps to complete this travel planning. Let me provide what I can with the current information."

/-- `acall_model` (main_travel_supervisor_agent.py lines 137-163), with the
model response and the output-safety verdict supplied as arguments (both are
produced by external services).  Mirrors the source order: output-safety
check first, then the remaining-steps check, then the plain response. -/
def acall_model (remaining_steps : Int) (response : AIMsg)
    (safety_output : LlamaGuardOutput) : NodeUpdate :=
  if safety_output.safety_assessment = SafetyAssessment.unsafe_ then
    { messages := [Message.ai (format_safety_message safety_output)]
      safety := some safety_output }
  else if remaining_steps < 2 ∧ response.tool_calls ≠ [] then
    { messages := [Message.ai
        { id := response.id, content := budget_fallback_content, tool_calls := [] }]
      safety := none }
  else
    { messages := [Message.ai response], safety := none }

/-- `block_unsafe_content` (lines 173-176): appends the formatted safety
message for the stored verdict. -/
def block_unsafe_content (safety : LlamaGuardOutput) : NodeUpdate :=
  { messages := [Message.ai (format_safety_message safety)], safety := none }

/-- The routing outcome of `check_safety` (lines 229-236). -/
inductive SafetyRoute where
  | unsafe_
  | safe
deriving Repr, DecidableEq

/-- `check_safety` (lines 229-236): route on the stored safety verdict. -/
def check_safety (safety : LlamaGuardOutput) : SafetyRoute :=
  match safety.safety_assessment with
  | SafetyAssessment.unsafe_ => SafetyRoute.unsafe_
  | _ => SafetyRoute.safe

/-- The routing outcome of `pending_tool_calls` (lines 250-257). -/
inductive ToolRoute where
  | tools
  | done
deriving Repr, DecidableEq

/-- `pending_tool_calls` (lines 250-257): inspects the last message; raises
`TypeError` (modelled as `Except.error`) when it is not an `AIMessage`,
and `IndexError` when the history is empty. -/
def pending_tool_calls (messages : List Message) : Except String ToolRoute :=
  match messages.getLast? with
  | some (Message.ai m) =>
      if m.tool_calls ≠ [] then Except.ok ToolRoute.tools else Except.ok ToolRoute.done
  | some _ => Except.error "Expected AIMessage"
  | none => Except.error "IndexError: list index out of range"

/-- A node of the supervisor state graph
(`main_travel_supervisor_agent.py` lines 220-263), plus the two ways a turn
ends: `done` (graph exit, `END`) and `failed` (an exception surfaced to the
caller). -/
inductive Node where
  | guard_input
  | model
  | tools
  | block_unsafe_content
  | done
  | failed (err : String)
deriving Repr, DecidableEq

/-- Modelled from the spec: the external collaborators of one turn (§1, §6) —
the input safety classifier verdict, the model response and output-safety
verdict for each model invocation (indexed by invocation number), and the
tool backends — fixed as oracle values. -/
structure Oracles where
  input_verdict : LlamaGuardOutput
  model_response : Nat → AIMsg
  output_verdict : Nat → LlamaGuardOutput
  tool_result : ToolCall → String

/-- The orchestration state of one turn: current node, message history,
stored safety verdict, remaining step budget, and instrumentation counters
(number of model invocations and of executed tool calls). -/
structure EngineState where
  node : Node
  messages : List Message
  safety : LlamaGuardOutput
  remaining_steps : Int
  invocations : Nat
  tool_executions : Nat

/-- One transition of the supervisor graph, following the edges declared in
`main_travel_supervisor_agent.py` lines 226-260: `guard_input` routes via
`check_safety`, `block_unsafe_content` exits, `model` routes via
`pending_tool_calls`, `tools` executes the last assistant message's tool
calls in order and returns to `model`.  The step budget is decremented once
per model invocation (spec §4.3; the managed counter itself lives in the
LangGraph runtime, not under src/). -/
def engineStep (o : Oracles) (s : EngineState) : EngineState :=
  match s.node with
  | Node.guard_input =>
      let v := o.input_verdict
      match check_safety v with
      | SafetyRoute.unsafe_ => { s with safety := v, node := Node.block_unsafe_content }
      | SafetyRoute.safe => { s with safety := v, node := Node.model }
  | Node.block_unsafe_content =>
      let upd := block_unsafe_content s.safety
      { s with messages := s.messages ++ upd.messages, node := Node.done }
  | Node.model =>
      let response := o.model_response s.invocations
      let verdict := o.output_verdict s.invocations
      let upd := acall_model s.remaining_steps response verdict
      let msgs := s.messages ++ upd.messages
      let s1 : EngineState :=
        { s with
          messages := msgs
          safety := upd.safety.getD s.safety
          remaining_steps := s.remaining_steps - 1
          invocations := s.invocations + 1 }
      match pending_tool_calls msgs with
      | Except.error e => { s1 with node := Node.failed e }
      | Except.ok ToolRoute.tools => { s1 with node := Node.tools }
      | Except.ok ToolRoute.done => { s1 with node := Node.done }
  | Node.tools =>
      match s.messages.getLast? with
      | some (Message.ai m) =>
          let results := m.tool_calls.map (fun tc => Message.tool tc.id (o.tool_result tc))
          { s with
            messages := s.messages ++ results
            tool_executions := s.tool_executions + m.tool_calls.length
            node := Node.model }
      | _ => { s with node := Node.failed "ToolNode: last message has no tool calls" }
  | Node.done => s
  | Node.failed _ => s

/-- The state at the start of a turn: entry point `guard_input`
(line 226), the prior message history, a default-safe verdict, and the
configured step budget. -/
def initState (user_messages : List Message) (limit : Int) : EngineState :=
  { node := Node.guard_input
    messages := user_messages
    safety := { safety_assessment := SafetyAssessment.safe, unsafe_categories := [] }
    remaining_steps := limit
    invocations := 0
    tool_executions := 0 }

/-- One row of a ChromaDB query result: the stored document, its metadata
mapping and the reported distance (the source zips
`documents[0]`, `metadatas[0]`, `distances[0]`). -/
structure QueryRow where
  document : String
  metadata : List (String × String)
  distance : ℚ
deriving Repr, DecidableEq

/-- A ChromaDB collection as the tools consume it: a count and a query
operation (query text and `n_results`), which may raise. -/
structure Collection where
  count : Nat
  query : String → Nat → Except String (List QueryRow)

/-- `DestinationSearchResult` (chroma_travel_tools.py lines 17-27). -/
structure DestinationSearchResult where
  destination : String
  description : String
  famous_for : List String
  unique_offerings : List String
  region : String
  country : String
  other_characteristics : String
  best_time_to_travel : String
  similarity_score : ℚ
deriving Repr, DecidableEq

/-- The dictionary returned by `search_destinations_chroma`; `query` and
`total_in_db` are present only on the success path. -/
structure SearchResponse where
  success : Bool
  message : String
  destinations : List DestinationSearchResult
  query : Option String
  total_in_db : Option Nat
deriving Repr, DecidableEq

/-- `_parse_string_to_list` (chroma_travel_tools.py lines 72-76): split on
commas, strip items, keep the non-empty ones. -/
def _parse_string_to_list (string_value : String) : List String :=
  if string_value = "" then []
  else ((string_value.splitOn ",").map (fun item => item.trim)).filter
    (fun item => item ≠ "")

/-- Python `metadata.get(key, default)` over the metadata mapping. -/
def metaGet (metadata : List (String × String)) (key dflt : String) : String :=
  match metadata.find? (fun kv => kv.1 == key) with
  | some kv => kv.2
  | none => dflt

/-- One destination entry built from a result row
(chroma_travel_tools.py lines 121-139): the similarity score is
`1.0 - distance` and the list-valued fields are re-parsed from strings. -/
def mkDestinationResult (metadata : List (String × String)) (distance : ℚ) :
    DestinationSearchResult :=
  let similarity_score := 1 - distance
  { destination := metaGet metadata "destination" "Unknown"
    description := metaGet metadata "description" ""
    famous_for := _parse_string_to_list (metaGet metadata "famous_for" "")
    unique_offerings := _parse_string_to_list (metaGet metadata "unique_offerings" "")
    region := metaGet metadata "region" ""
    country := metaGet metadata "country" ""
    other_characteristics := metaGet metadata "other_characteristics" ""
    best_time_to_travel := metaGet metadata "best_time_to_travel" ""
    similarity_score := similarity_score }

/-- Message returned when the store is unavailable
(chroma_travel_tools.py line 96). -/
def db_unavailable_message : String :=
  "Travel vector database not available. Please run the setup script first."

/-- Message returned when the collection is empty
(chroma_travel_tools.py line 105). -/
def db_empty_message : String :=
  "No destinations found in database. Please run the setup script to populate the database."

/-- The body of the `try` block of `search_destinations_chroma`
(chroma_travel_tools.py lines 91-147); an `Except.error` stands for an
exception escaping the body. -/
def search_destinations_chroma_body (collection : Option Collection)
    (query : String) (n_results : Nat) : Except String SearchResponse :=
  match collection with
  | none =>
      Except.ok { success := false, message := db_unavailable_message
                  destinations := [], query := none, total_in_db := none }
  | some col =>
      if col.count = 0 then
        Except.ok { success := false, message := db_empty_message
                    destinations := [], query := none, total_in_db := none }
      else
        match col.query query (min n_results col.count) with
        | Except.error e => Except.error e
        | Except.ok rows =>
            let destinations :=
              rows.map (fun row => mkDestinationResult row.metadata row.distance)
            let found := destinations.length
            Except.ok
              { success := true
                message := "Found " ++ toString found ++ " destinations matching \x27"
                  ++ query ++ "\x27"
                destinations := destinations
                query := some query
                total_in_db := some col.count }

/-- `search_destinations_chroma` (chroma_travel_tools.py lines 79-155): the
body wrapped in the `except` clause that converts any exception into a
structured `success=false` response (lines 149-155). -/
def search_destinations_chroma (collection : Option Collection)
    (query : String) (n_results : Nat) : SearchResponse :=
  match search_destinations_chroma_body collection query n_results with
  | Except.ok r => r
  | Except.error e =>
      { success := false, message := "Error searching destinations: " ++ e
        destinations := [], query := none, total_in_db := none }

/-- The `search_params` dictionary stored by `search_flights_amadeus`
(amadeus_tools.py lines 102-113); `returnDate` is present only when a
return date was supplied. -/
structure FlightSearchParams where
  origin : String
  destination : String
  departureDate : String
  adults : Nat
  children : Nat
  infants : Nat
  travelClass : String
  returnDate : Option String
deriving Repr, DecidableEq

/-- A flight-search result dictionary as `format_amadeus_results` reads it:
the success flag, the (opaque) flight offers and the search parameters. -/
structure FlightResults where
  success : Bool
  flights : List String
  search_params : FlightSearchParams
deriving Repr, DecidableEq

/-- The `search_params` dictionary stored by `search_hotels_amadeus`
(amadeus_tools.py lines 180-187). -/
structure HotelSearchParams where
  cityCode : String
  checkInDate : String
  checkOutDate : String
  adults : Nat
  rooms : Nat
  currency : String
deriving Repr, DecidableEq

/-- A hotel-search result dictionary as the formatter reads it. -/
structure HotelResults where
  success : Bool
  hotels : List String
  search_params : HotelSearchParams
deriving Repr, DecidableEq

/-- The nested `address` dictionary of an airport entry; every field is
read with a `.get` default. -/
structure AirportAddress where
  cityName : Option String
  countryName : Option String
deriving Repr, DecidableEq

/-- One airport entry as the formatter reads it (amadeus_tools.py
lines 362-364): every field accessed via `.get` with a default. -/
structure Airport where
  name : Option String
  iataCode : Option String
  address : Option AirportAddress
deriving Repr, DecidableEq

/-- An airport-search result dictionary as the formatter reads it. -/
structure AirportResults where
  success : Bool
  airports : List Airport
deriving Repr, DecidableEq

/-- The per-flight markdown lines (amadeus_tools.py lines 334-340); the
flight payload itself is never inspected, only the index and the search
parameters are printed. -/
def flight_lines (p : FlightSearchParams) (i : Nat) : List String :=
  ["### Flight " ++ toString i,
   "- **Route**: " ++ p.origin ++ " → " ++ p.destination,
   "- **Date**: " ++ p.departureDate]
  ++ (match p.returnDate with
      | some r => ["- **Return**: " ++ r]
      | none => [])
  ++ ["- **Passengers**: " ++ toString p.adults ++ " adults", ""]

/-- The per-hotel markdown lines (amadeus_tools.py lines 349-354). -/
def hotel_lines (p : HotelSearchParams) (i : Nat) : List String :=
  ["### Hotel " ++ toString i,
   "- **Location**: " ++ p.cityCode,
   "- **Check-in**: " ++ p.checkInDate,
   "- **Check-out**: " ++ p.checkOutDate,
   "- **Guests**: " ++ toString p.adults ++ " adults, " ++ toString p.rooms ++ " rooms",
   ""]

/-- The per-airport markdown lines (amadeus_tools.py lines 363-364). -/
def airport_lines (a : Airport) : List String :=
  let addr := a.address.getD { cityName := none, countryName := none }
  ["- **" ++ a.name.getD "Unknown" ++ "** (" ++ a.iataCode.getD "N/A" ++ ")",
   "  - " ++ addr.cityName.getD "Unknown City" ++ ", "
     ++ addr.countryName.getD "Unknown Country"]

/-- The flight section of the markdown (amadeus_tools.py lines 329-342). -/
def flight_section (fr : FlightResults) : List String :=
  if fr.success then
    ["## ✈️ Flight Search Results"]
    ++ (if fr.flights ≠ [] then
          (List.range (fr.flights.take 5).length).map
            (fun i => flight_lines fr.search_params (i + 1)) |>.flatten
        else ["No flights found for the specified criteria."])
  else []

/-- The hotel section of the markdown (amadeus_tools.py lines 344-356). -/
def hotel_section (hr : HotelResults) : List String :=
  if hr.success then
    ["## 🏨 Hotel Search Results"]
    ++ (if hr.hotels ≠ [] then
          (List.range (hr.hotels.take 5).length).map
            (fun i => hotel_lines hr.search_params (i + 1)) |>.flatten
        else ["No hotels found for the specified criteria."])
  else []

/-- The airport section of the markdown (amadeus_tools.py lines 358-366). -/
def airport_section (ar : AirportResults) : List String :=
  if ar.success then
    ["## 🛫 Airport Information"]
    ++ (if ar.airports ≠ [] then
          ((ar.airports.take 3).map airport_lines).flatten
        else ["No airports found for the specified criteria."])
  else []

/-- `format_amadeus_results` (amadeus_tools.py lines 310-371): assemble the
markdown parts for whichever result sets are present and successful, and
join them with newlines. -/
def format_amadeus_results (flight_results : Option FlightResults)
    (hotel_results : Option HotelResults)
    (airport_results : Option AirportResults) : String :=
  let markdown_parts :=
    (match flight_results with | some fr => flight_section fr | none => [])
    ++ (match hotel_results with | some hr => hotel_section hr | none => [])
    ++ (match airport_results with | some ar => airport_section ar | none => [])
  if markdown_parts = [] then "No search results available."
  else String.intercalate "\n" markdown_parts

/-- A call to the formatting tool threaded through an arbitrary ambient
state `W`: the source body performs no reads or writes outside its
arguments, so its embedding returns the ambient state unchanged. -/
def format_amadeus_results_call {W : Type} (w : W)
    (flight_results : Option FlightResults) (hotel_results : Option HotelResults)
    (airport_results : Option AirportResults) : String × W :=
  (format_amadeus_results flight_results hotel_results airport_results, w)

/-- String prefix test, computed on the underlying character lists (used so
that statements about message prefixes are kernel-evaluable). -/
def str_starts (p s : String) : Bool := p.toList.isPrefixOf s.toList

/-- The routing phases of §4.5. -/
inductive Phase where
  | generic_planning
  | destination_research
  | package_search
  | booking
deriving Repr, DecidableEq

namespace IntentRouter

/-- Modelled from the spec: the `IntentRouter` component (§2, §4.5) is not
under src/; its observable contract is fixed by the "Intent Recognition
Patterns" of the supervisor instructions
(main_travel_supervisor_agent.py lines 90-98), realised here as ordered
prefix patterns mapped to phases. -/
def intent_patterns : List (String × Phase) :=
  [("I want to plan a trip to", Phase.generic_planning),
   ("Tell me about", Phase.destination_research),
   ("Find me packages for", Phase.package_search),
   ("I want to book", Phase.booking),
   ("Help me plan", Phase.generic_planning),
   ("What\x27s the best time to visit", Phase.destination_research),
   ("Show me travel deals", Phase.package_search),
   ("Confirm my booking", Phase.booking)]

/-- Modelled from the spec: `IntentRouter.classify` (§4.5) — the first
matching intent pattern selects the phase; otherwise generic planning. -/
def classify (message : String) : Phase :=
  match intent_patterns.find? (fun p => str_starts p.1 message) with
  | some p => p.2
  | none => Phase.generic_planning

end IntentRouter

/-- Example tool call used to instantiate witnesses. -/
def exToolCall : ToolCall :=
  { id := "call1", name := "format_travel_recommendation", args := [] }

/-- Example model response carrying one pending tool call. -/
def exResponseWithTool : AIMsg :=
  { id := some "m1", content := "", tool_calls := [exToolCall] }

/-- Example UNSAFE verdict with one violated category. -/
def exUnsafeVerdict : LlamaGuardOutput :=
  { safety_assessment := SafetyAssessment.unsafe_, unsafe_categories := ["S1"] }

/-- Example SAFE verdict. -/
def exSafeVerdict : LlamaGuardOutput :=
  { safety_assessment := SafetyAssessment.safe, unsafe_categories := [] }

/-- Example oracles: the input is classified UNSAFE. -/
def exOraclesUnsafeInput : Oracles :=
  { input_verdict := exUnsafeVerdict
    model_response := fun _ => exResponseWithTool
    output_verdict := fun _ => exSafeVerdict
    tool_result := fun _ => "ok" }

/-- Example oracles: safe input, but every model output is classified
UNSAFE. -/
def exOraclesUnsafeOutput : Oracles :=
  { input_verdict := exSafeVerdict
    model_response := fun _ => exResponseWithTool
    output_verdict := fun _ => exUnsafeVerdict
    tool_result := fun _ => "ok" }

/-- Example oracles: everything classified SAFE. -/
def exOraclesSafe : Oracles :=
  { input_verdict := exSafeVerdict
    model_response := fun _ => exResponseWithTool
    output_verdict := fun _ => exSafeVerdict
    tool_result := fun _ => "ok" }

/-- Example engine state sitting at the `model` node with one remaining
step. -/
def exModelState : EngineState :=
  { node := Node.model
    messages := [Message.user "plan a trip"]
    safety := exSafeVerdict
    remaining_steps := 1
    invocations := 0
    tool_executions := 0 }

/-- Example query rows returned by a populated collection. -/
def exRow1 : QueryRow :=
  { document := "doc1"
    metadata := [("destination", "Goa"), ("famous_for", "beaches, nightlife")]
    distance := 1 / 4 }

/-- Second example query row, at a larger distance. -/
def exRow2 : QueryRow :=
  { document := "doc2", metadata := [("destination", "Kyoto")], distance := 1 / 2 }

/-- Example collection reporting a count of 0. -/
def exEmptyCollection : Collection :=
  { count := 0, query := fun _ _ => Except.ok [] }

/-- Example collection whose query operation raises. -/
def exFailingCollection : Collection :=
  { count := 2, query := fun _ _ => Except.error "boom" }

/-- Example populated collection returning two rows. -/
def exGoodCollection : Collection :=
  { count := 2, query := fun _ _ => Except.ok [exRow1, exRow2] }

/-- Invariant of the orchestration state: the budget is non-negative, and at
any node that can still reach a model invocation there is at least one step
left. -/
def EngineInv (s : EngineState) : Prop :=
  0 ≤ s.remaining_steps ∧
  (s.node = Node.guard_input → 1 ≤ s.remaining_steps) ∧
  (s.node = Node.model → 1 ≤ s.remaining_steps) ∧
  (s.node = Node.tools → 1 ≤ s.remaining_steps)

theorem engineInv_step (o : Oracles) (s : EngineState) (h : EngineInv s) :
    EngineInv (engineStep o s) := by
  obtain ⟨nd, msgs, sf, r, inv, te⟩ := s
  obtain ⟨h0, hg, hm, ht⟩ := h
  simp only at h0 hg hm ht
  cases nd with
  | guard_input =>
      have hr := hg rfl
      cases hc : check_safety o.input_verdict <;>
        simp [engineStep, hc, EngineInv] <;> omega
  | block_unsafe_content =>
      simp [engineStep, EngineInv]; omega
  | model =>
      have hr := hm rfl
      cases hv : (o.output_verdict inv).safety_assessment with
      | unsafe_ =>
          simp [engineStep, acall_model, hv, pending_tool_calls, format_safety_message,
            EngineInv]
          omega
      | safe =>
          by_cases hb1 : r < 2
          · by_cases htc : (o.model_response inv).tool_calls = []
            · simp [engineStep, acall_model, hv, htc, pending_tool_calls, EngineInv]
              omega
            · simp [engineStep, acall_model, hv, hb1, htc, pending_tool_calls, EngineInv]
              omega
          · by_cases htc : (o.model_response inv).tool_calls = []
            · simp [engineStep, acall_model, hv, htc, pending_tool_calls, EngineInv]
              omega
            · simp [engineStep, acall_model, hv, hb1, htc, pending_tool_calls, EngineInv]
              omega
  | tools =>
      have hr := ht rfl
      cases hlast : msgs.getLast? with
      | none => simp [engineStep, hlast, EngineInv]; omega
      | some m => cases m <;> simp [engineStep, hlast, EngineInv] <;> omega
  | done =>
      refine ⟨h0, ?_, ?_, ?_⟩ <;> simp [engineStep]
  | failed e =>
      refine ⟨h0, ?_, ?_, ?_⟩ <;> simp [engineStep]

theorem engineStep_model_remaining (o : Oracles) (s : EngineState)
    (hnode : s.node = Node.model) :
    (engineStep o s).remaining_steps = s.remaining_steps - 1 := by
  obtain ⟨nd, msgs, sf, r, inv, te⟩ := s
  cases hnode
  show (engineStep o _).remaining_steps = r - 1
  unfold engineStep
  dsimp only
  split <;> rfl

/-- C1: when the input is classified UNSAFE, the engine goes from
`guard_input` to `block_unsafe_content` and then to the terminal state,
the history gains exactly one safety-violation message (the one formatted
from the verdict's categories), and in the whole turn the model is never
invoked and no tool call is ever executed. -/
theorem C1_input_safety_short_circuit (o : Oracles) (init : List Message)
    (limit : Int)
    (h : o.input_verdict.safety_assessment = SafetyAssessment.unsafe_) :
    (engineStep o (initState init limit)).node = Node.block_unsafe_content ∧
    ((engineStep o)^[2] (initState init limit)).node = Node.done ∧
    ((engineStep o)^[2] (initState init limit)).messages
      = init ++ [Message.ai (format_safety_message o.input_verdict)] ∧
    ∀ n : Nat, ((engineStep o)^[n] (initState init limit)).invocations = 0 ∧
      ((engineStep o)^[n] (initState init limit)).tool_executions = 0 := by
  have h1 : engineStep o (initState init limit) =
      { node := Node.block_unsafe_content, messages := init, safety := o.input_verdict
        remaining_steps := limit, invocations := 0, tool_executions := 0 } := by
    simp [engineStep, initState, check_safety, h]
  have h2 : (engineStep o)^[2] (initState init limit) =
      { node := Node.done
        messages := init ++ [Message.ai (format_safety_message o.input_verdict)]
        safety := o.input_verdict
        remaining_steps := limit, invocations := 0, tool_executions := 0 } := by
    show engineStep o (engineStep o (initState init limit)) = _
    rw [h1]
    simp [engineStep, block_unsafe_content]
  refine ⟨by rw [h1], by rw [h2], by rw [h2], ?_⟩
  intro n
  match n with
  | 0 => exact ⟨rfl, rfl⟩
  | 1 => rw [Function.iterate_one, h1]; exact ⟨rfl, rfl⟩
  | Nat.succ (Nat.succ k) =>
      have hfix : ∀ j : Nat,
          (engineStep o)^[j] ((engineStep o)^[2] (initState init limit))
            = (engineStep o)^[2] (initState init limit) := by
        intro j
        apply Function.iterate_fixed
        rw [h2]
        simp [engineStep]
      have hsplit : (engineStep o)^[k + 2] (initState init limit)
          = (engineStep o)^[k] ((engineStep o)^[2] (initState init limit)) :=
        Function.iterate_add_apply _ k 2 _
      rw [show k.succ.succ = k + 2 from rfl, hsplit, hfix, h2]
      exact ⟨rfl, rfl⟩

/-- C1 witness: with the example UNSAFE-input oracles, the first step blocks
and after two steps the turn is terminal with no tool executed. -/
theorem C1_input_safety_short_circuit_witness :
    (engineStep exOraclesUnsafeInput (initState [Message.user "bad request"] 5)).node
      = Node.block_unsafe_content ∧
    ((engineStep exOraclesUnsafeInput)^[2]
        (initState [Message.user "bad request"] 5)).node = Node.done ∧
    ((engineStep exOraclesUnsafeInput)^[2]
        (initState [Message.user "bad request"] 5)).tool_executions = 0 :=
  ⟨(C1_input_safety_short_circuit exOraclesUnsafeInput [Message.user "bad request"] 5 rfl).1,
   (C1_input_safety_short_circuit exOraclesUnsafeInput [Message.user "bad request"] 5 rfl).2.1,
   ((C1_input_safety_short_circuit exOraclesUnsafeInput [Message.user "bad request"] 5
      rfl).2.2.2 2).2⟩

/-- C2: when the output-safety check classifies the model response UNSAFE,
the model node replaces it with the safety message, records the verdict,
and the engine terminates without entering the tools node — for every
response, including ones carrying pending tool calls. -/
theorem C2_output_safety_short_circuit (o : Oracles) (s : EngineState)
    (hnode : s.node = Node.model)
    (hv : (o.output_verdict s.invocations).safety_assessment
      = SafetyAssessment.unsafe_) :
    (engineStep o s).node = Node.done ∧
    (engineStep o s).messages
      = s.messages ++ [Message.ai (format_safety_message (o.output_verdict s.invocations))] ∧
    (engineStep o s).safety = o.output_verdict s.invocations ∧
    (engineStep o s).tool_executions = s.tool_executions := by
  obtain ⟨nd, msgs, sf, r, inv, te⟩ := s
  cases hnode
  simp only at hv
  simp [engineStep, acall_model, hv, pending_tool_calls, format_safety_message]

/-- C2 witness: at the example model-node state whose response carries a
pending tool call but is classified UNSAFE, the engine terminates with the
safety message. -/
theorem C2_output_safety_short_circuit_witness :
    (engineStep exOraclesUnsafeOutput exModelState).node = Node.done ∧
    (engineStep exOraclesUnsafeOutput exModelState).messages
      = exModelState.messages ++ [Message.ai (format_safety_message exUnsafeVerdict)] :=
  ⟨(C2_output_safety_short_circuit exOraclesUnsafeOutput exModelState rfl rfl).1,
   (C2_output_safety_short_circuit exOraclesUnsafeOutput exModelState rfl rfl).2.1⟩

/-- C3 counterexample: the fallback text the code substitutes is a fixed
string that differs from the text quoted in the claim, so the claim as
stated fails at this concrete input. -/
theorem C3_fallback_text_counterexample :
    (acall_model 1 exResponseWithTool exSafeVerdict).messages
      = [Message.ai { id := some "m1", content := budget_fallback_content,
                      tool_calls := [] }] ∧
    budget_fallback_content
      ≠ "I need more steps to complete this; here is what I can provide now" :=
  ⟨by decide, by decide⟩

/-- C3 (amended): when the remaining step count is < 2, the (safe) model
response carries pending tool calls, the engine discards the tool calls
and substitutes the fixed fallback message "I need more steps to complete
this travel planning. Let me provide what I can with the current
information." carrying the same message id, and transitions directly to
the terminal state without entering the tools node. -/
theorem C3_budget_fallback (o : Oracles) (s : EngineState)
    (hnode : s.node = Node.model)
    (hv : (o.output_verdict s.invocations).safety_assessment = SafetyAssessment.safe)
    (hrem : s.remaining_steps < 2)
    (htc : (o.model_response s.invocations).tool_calls ≠ []) :
    (engineStep o s).node = Node.done ∧
    (engineStep o s).messages = s.messages ++ [Message.ai
      { id := (o.model_response s.invocations).id
        content := budget_fallback_content
        tool_calls := [] }] ∧
    (engineStep o s).tool_executions = s.tool_executions := by
  obtain ⟨nd, msgs, sf, r, inv, te⟩ := s
  cases hnode
  simp only at hv hrem htc
  simp [engineStep, acall_model, hv, hrem, htc, pending_tool_calls]

/-- C3 witness: at the example model-node state with one remaining step and
a safe response carrying a tool call, the engine terminates with the
fallback message under the response's id. -/
theorem C3_budget_fallback_witness :
    (engineStep exOraclesSafe exModelState).node = Node.done ∧
    (engineStep exOraclesSafe exModelState).messages
      = exModelState.messages ++ [Message.ai
        { id := some "m1", content := budget_fallback_content, tool_calls := [] }] :=
  ⟨(C3_budget_fallback exOraclesSafe exModelState rfl rfl (by decide) (by decide)).1,
   (C3_budget_fallback exOraclesSafe exModelState rfl rfl (by decide) (by decide)).2.1⟩

/-- C4: in every state reachable from the start of a turn (budget ≥ 1), the
remaining step count is non-negative, and whenever the engine is at the
model node the count is strictly positive and executing the node decreases
it by exactly 1. -/
theorem C4_budget_monotonicity (o : Oracles) (init : List Message) (limit : Int)
    (hlimit : 1 ≤ limit) (n : Nat) :
    0 ≤ ((engineStep o)^[n] (initState init limit)).remaining_steps ∧
    (((engineStep o)^[n] (initState init limit)).node = Node.model →
      0 < ((engineStep o)^[n] (initState init limit)).remaining_steps ∧
      (engineStep o ((engineStep o)^[n] (initState init limit))).remaining_steps
        = ((engineStep o)^[n] (initState init limit)).remaining_steps - 1) := by
  have hinv : EngineInv ((engineStep o)^[n] (initState init limit)) := by
    induction n with
    | zero =>
        exact ⟨by simp [initState]; omega, fun _ => hlimit, fun _ => hlimit,
          fun _ => hlimit⟩
    | succ k ih =>
        rw [Function.iterate_succ_apply']
        exact engineInv_step o _ ih
  obtain ⟨h0, _, hm, _⟩ := hinv
  refine ⟨h0, fun hmodel => ⟨?_, engineStep_model_remaining o _ hmodel⟩⟩
  have := hm hmodel
  omega

/-- C4 witness: after one step of a safe turn started with budget 3 the
invariants hold. -/
theorem C4_budget_monotonicity_witness :
    0 ≤ ((engineStep exOraclesSafe)^[1] (initState [Message.user "hi"] 3)).remaining_steps ∧
    (((engineStep exOraclesSafe)^[1] (initState [Message.user "hi"] 3)).node
        = Node.model →
      0 < ((engineStep exOraclesSafe)^[1]
        (initState [Message.user "hi"] 3)).remaining_steps ∧
      (engineStep exOraclesSafe ((engineStep exOraclesSafe)^[1]
          (initState [Message.user "hi"] 3))).remaining_steps
        = ((engineStep exOraclesSafe)^[1]
            (initState [Message.user "hi"] 3)).remaining_steps - 1) :=
  C4_budget_monotonicity exOraclesSafe [Message.user "hi"] 3 (by decide) 1

/-- C5: at the transition decision after the model node, a history whose
last message is not an assistant-role message makes `pending_tool_calls`
raise (surfacing a `TypeError` to the caller) rather than returning a
route — the message is never coerced and the turn never continues. -/
theorem C5_malformed_output_fails (messages : List Message) (m : Message)
    (hlast : messages.getLast? = some m)
    (hnotai : ∀ a : AIMsg, m ≠ Message.ai a) :
    pending_tool_calls messages = Except.error "Expected AIMessage" := by
  unfold pending_tool_calls
  rw [hlast]
  cases m with
  | user c => rfl
  | ai a => exact absurd rfl (hnotai a)
  | tool i c => rfl

/-- C5 witness: a history ending in a user message makes the transition
decision fail. -/
theorem C5_malformed_output_fails_witness :
    pending_tool_calls [Message.user "hi"] = Except.error "Expected AIMessage" :=
  C5_malformed_output_fails [Message.user "hi"] (Message.user "hi") rfl
    (fun _ h => Message.noConfusion h)

/-- C6: the vector search never propagates an exception to its caller —
when the store is unavailable it returns success=false with the
explanatory unavailable message and no results; when the collection
reports a count of 0 it returns success=false with a message beginning
"No destinations found" and no results; and when the body raises, the
caller still receives a structured success=false response with no
results. -/
theorem C6_search_error_handling (collection : Option Collection)
    (query : String) (n : Nat) :
    (collection = none →
      search_destinations_chroma collection query n =
        { success := false, message := db_unavailable_message, destinations := []
          query := none, total_in_db := none }) ∧
    (∀ col : Collection, collection = some col → col.count = 0 →
      search_destinations_chroma collection query n =
        { success := false, message := db_empty_message, destinations := []
          query := none, total_in_db := none } ∧
      str_starts "No destinations found" db_empty_message = true) ∧
    (∀ e : String,
      search_destinations_chroma_body collection query n = Except.error e →
      (search_destinations_chroma collection query n).success = false ∧
      (search_destinations_chroma collection query n).destinations = []) := by
  refine ⟨?_, ?_, ?_⟩
  · intro h
    subst h
    rfl
  · intro col hcol hcount
    subst hcol
    refine ⟨?_, by decide⟩
    simp [search_destinations_chroma, search_destinations_chroma_body, hcount]
  · intro e he
    simp [search_destinations_chroma, he]

/-- C6 witness: the unavailable-store, empty-collection and raising-backend
cases, each at a concrete input. -/
theorem C6_search_error_handling_witness :
    search_destinations_chroma none "beach" 5 =
      { success := false, message := db_unavailable_message, destinations := []
        query := none, total_in_db := none } ∧
    search_destinations_chroma (some exEmptyCollection) "beach" 5 =
      { success := false, message := db_empty_message, destinations := []
        query := none, total_in_db := none } ∧
    (search_destinations_chroma (some exFailingCollection) "beach" 5).success
      = false :=
  ⟨(C6_search_error_handling none "beach" 5).1 rfl,
   ((C6_search_error_handling (some exEmptyCollection) "beach" 5).2.1
      exEmptyCollection rfl rfl).1,
   ((C6_search_error_handling (some exFailingCollection) "beach" 5).2.2
      "boom" rfl).1⟩

/-- C7: every similarity score reported by the vector search equals exactly
1 minus the distance reported by the store for that row, and a lower
distance always yields a higher score. -/
theorem C7_similarity_score (col : Collection) (query : String) (n : Nat)
    (rows : List QueryRow) (hcount : col.count ≠ 0)
    (hq : col.query query (min n col.count) = Except.ok rows) :
    (search_destinations_chroma (some col) query n).destinations.map
        (fun d => d.similarity_score)
      = rows.map (fun row => 1 - row.distance) ∧
    ∀ row1 row2 : QueryRow, row1.distance < row2.distance →
      (mkDestinationResult row2.metadata row2.distance).similarity_score
        < (mkDestinationResult row1.metadata row1.distance).similarity_score := by
  constructor
  · simp [search_destinations_chroma, search_destinations_chroma_body, hcount, hq,
      List.map_map, Function.comp, mkDestinationResult]
  · intro row1 row2 hlt
    simp only [mkDestinationResult]
    linarith

/-- C7 witness: on the example populated collection the reported scores are
exactly 1 minus the reported distances, and the nearer row scores
higher. -/
theorem C7_similarity_score_witness :
    (search_destinations_chroma (some exGoodCollection) "beach" 5).destinations.map
        (fun d => d.similarity_score)
      = [exRow1, exRow2].map (fun row => 1 - row.distance) ∧
    (mkDestinationResult exRow2.metadata exRow2.distance).similarity_score
      < (mkDestinationResult exRow1.metadata exRow1.distance).similarity_score :=
  ⟨(C7_similarity_score exGoodCollection "beach" 5 [exRow1, exRow2]
      (by decide) rfl).1,
   (C7_similarity_score exGoodCollection "beach" 5 [exRow1, exRow2]
      (by decide) rfl).2 exRow1 exRow2 (by norm_num [exRow1, exRow2])⟩

/-- C8: intent classification is a deterministic function of the input
text — identical texts always classify identically — and the two example
messages route to the booking and destination-research phases. -/
theorem C8_deterministic_routing :
    (∀ s t : String, s = t → IntentRouter.classify s = IntentRouter.classify t) ∧
    IntentRouter.classify "I want to book a 5-night package to Goa" = Phase.booking ∧
    IntentRouter.classify "Tell me about Kyoto in autumn"
      = Phase.destination_research :=
  ⟨fun _ _ h => congrArg IntentRouter.classify h, by decide, by decide⟩

/-- C8 witness: the determinism part applied at the concrete booking
message, together with its classification. -/
theorem C8_deterministic_routing_witness :
    IntentRouter.classify "I want to book a 5-night package to Goa"
      = IntentRouter.classify "I want to book a 5-night package to Goa" ∧
    IntentRouter.classify "I want to book a 5-night package to Goa"
      = Phase.booking :=
  ⟨C8_deterministic_routing.1 "I want to book a 5-night package to Goa"
      "I want to book a 5-night package to Goa" rfl,
   C8_deterministic_routing.2.1⟩

/-- C9: the formatting tool is pure — calling it twice on identical
structured input yields byte-identical markdown and leaves any ambient
state untouched. -/
theorem C9_idempotent_formatting {W : Type} (w : W)
    (flight_results : Option FlightResults) (hotel_results : Option HotelResults)
    (airport_results : Option AirportResults) :
    (format_amadeus_results_call w flight_results hotel_results airport_results).1
      = (format_amadeus_results_call
          (format_amadeus_results_call w flight_results hotel_results
            airport_results).2
          flight_results hotel_results airport_results).1 ∧
    (format_amadeus_results_call
        (format_amadeus_results_call w flight_results hotel_results
          airport_results).2
        flight_results hotel_results airport_results).2 = w :=
  ⟨rfl, rfl⟩

/-- C10: inside the model node, the output-safety check takes precedence
over the budget fallback — an UNSAFE response yields the safety message
(with the verdict recorded) even when the remaining step count is < 2 and
the response carries pending tool calls, never the fallback message. -/
theorem C10_output_safety_precedes_budget (remaining : Int) (response : AIMsg)
    (verdict : LlamaGuardOutput)
    (hv : verdict.safety_assessment = SafetyAssessment.unsafe_)
    (hrem : remaining < 2) (htc : response.tool_calls ≠ []) :
    acall_model remaining response verdict =
      { messages := [Message.ai (format_safety_message verdict)]
        safety := some verdict } ∧
    acall_model remaining response verdict ≠
      { messages := [Message.ai
          { id := response.id, content := budget_fallback_content, tool_calls := [] }]
        safety := none } := by
  constructor
  · simp [acall_model, hv]
  · simp [acall_model, hv]

/-- C10 witness: with one remaining step and a tool-calling response judged
UNSAFE, the node returns the safety message, not the fallback. -/
theorem C10_output_safety_precedes_budget_witness :
    acall_model 1 exResponseWithTool exUnsafeVerdict =
      { messages := [Message.ai (format_safety_message exUnsafeVerdict)]
        safety := some exUnsafeVerdict } :=
  (C10_output_safety_precedes_budget 1 exResponseWithTool exUnsafeVerdict rfl
    (by decide) (by decide)).1

end TravelRag
